import Mathlib

/-
Verification of the pueue daemon bootstrap (src/daemon/main.rs).

The file shallowly embeds the daemon's startup path: the order of the steps
performed by `main`, the ctrl-c (SIGINT/SIGTERM) handler closure, the
`init_directories` bootstrap, the `fork_daemon` re-spawn helper, the
verbosity-to-log-level mapping, the settings read/fallback logic, and the
wiring of the shared state mutex, the control-message channel and the
threads. Effectful steps are modelled as event traces in source order
(nominal, non-failing runs); the filesystem is a set of existing directory
paths.
-/

namespace PueueDaemon

/-- Log level of the simplelog crate as matched in src/daemon/main.rs. -/
inductive LevelFilter
  | Error
  | Warn
  | Info
  | Debug
  deriving DecidableEq

/-- Modelled from the spec: the control-message vocabulary of pueue::message
(the library crate is not under src/; the payload kinds are listed in the
spec's external-interface section). src/daemon/main.rs itself only names
Message.DaemonShutdown. -/
inductive Message
  | Add
  | Remove
  | Start
  | Pause
  | Kill
  | Send
  | Edit
  | EditResponse
  | Group
  | Status
  | Log
  | Stream
  | Clean
  | Reset
  | Parallel
  | DaemonShutdown
  deriving DecidableEq

/-- Observable steps of the daemon bootstrap, in the vocabulary of
src/daemon/main.rs: each constructor corresponds to one statement (or one
block) of `main`, of the ctrl-c closure, or of `fork_daemon`. -/
inductive Event
  | parseArgs
  | spawnChild (program : String) (args : List String)
  | printNotice (msg : String)
  | exitProcess (code : Nat)
  | initLogger (level : LevelFilter)
  | readSettings
  | initDirectories
  | createState
  | createChannel
  | setCtrlcHandler
  | setPanicHook
  | spawnHandlerThread
  | acceptIncoming
  | removeFile (path : String)
  | sendMessage (msg : Message)
  deriving DecidableEq

/-- Command-line options of the daemon binary, as used by main and
fork_daemon (opt.daemonize, opt.verbose, opt.port, opt.config). -/
structure Opt where
  daemonize : Bool
  verbose : Nat
  port : Option String
  config : Option String
  deriving DecidableEq

/-- Shared section of the settings, as used in src/daemon/main.rs
(settings.shared.pueue_directory, settings.shared.use_unix_socket,
settings.shared.unix_socket_path). -/
structure Shared where
  pueue_directory : String
  use_unix_socket : Bool
  unix_socket_path : String
  deriving DecidableEq

/-- Daemon settings; only the shared section is consulted in main.rs. -/
structure Settings where
  shared : Shared
  deriving DecidableEq

/-- Rust's " ".repeat(n): a string of n space characters. -/
def space_repeat (n : Nat) : String :=
  String.mk (List.replicate n ' ')

/-- Argument vector built by fork_daemon (src/daemon/main.rs lines 148-157):
"--port <port>" when a port option is present, then, for nonzero verbosity v,
the single argument "-" followed by v spaces (the source writes
"-".to_string() + &" ".repeat(opt.verbose)). -/
def fork_arguments (opt : Opt) : List String :=
  (match opt.port with
    | some port => ["--port", port]
    | none => []) ++
  (if opt.verbose > 0 then ["-" ++ space_repeat opt.verbose] else [])

/-- Notice printed by fork_daemon before exiting. -/
def fork_notice : String := "Pueued is now running in the background"

/-- Effects of fork_daemon (src/daemon/main.rs lines 147-163) on the nominal
path: spawn a new pueued child with the forwarded arguments, print the
notice, exit with status 0. -/
def fork_daemon (opt : Opt) : List Event :=
  [Event.spawnChild "pueued" (fork_arguments opt),
   Event.printNotice fork_notice,
   Event.exitProcess 0]

/-- Verbosity-to-level match of src/daemon/main.rs lines 38-43. -/
def verbosityLevel (verbose : Nat) : LevelFilter :=
  match verbose with
  | 0 => LevelFilter.Error
  | 1 => LevelFilter.Warn
  | 2 => LevelFilter.Info
  | _ => LevelFilter.Debug

/-- Step order of `main` (src/daemon/main.rs lines 29-107) on the nominal
path: parse options; when daemonize is set, fork_daemon runs and exits the
process, so nothing after it executes; otherwise logger setup, settings
read, directory bootstrap, state and channel construction, ctrl-c handler
and panic hook installation, the handler thread spawn, and the accept loop
follow in source order. -/
def mainTrace (opt : Opt) : List Event :=
  Event.parseArgs ::
    (if opt.daemonize then
      fork_daemon opt
    else
      [Event.initLogger (verbosityLevel opt.verbose),
       Event.readSettings,
       Event.initDirectories,
       Event.createState,
       Event.createChannel,
       Event.setCtrlcHandler,
       Event.setPanicHook,
       Event.spawnHandlerThread,
       Event.acceptIncoming])

/-- Index of the first occurrence of an event in main's trace (length of the
trace when absent). -/
def eventIndex (opt : Opt) (e : Event) : Nat :=
  (mainTrace opt).findIdx fun x => decide (x = e)

/-- Whether the panic hook installed by main is already in place when the
given step of main runs, i.e. whether a panic raised inside that step is
processed by the installed hook. -/
def hook_covers (opt : Opt) (e : Event) : Bool :=
  decide (eventIndex opt Event.setPanicHook < eventIndex opt e)

/-- Body of the panic hook installed in src/daemon/main.rs lines 93-98:
first invoke the previously installed default handler (its diagnostics,
whatever they are), then exit the process with code 1. -/
def panic_hook (orig_hook : List Event) : List Event :=
  orig_hook ++ [Event.exitProcess 1]

/-- Actions of the ctrl-c (SIGINT/SIGTERM) handler closure of
src/daemon/main.rs lines 80-91, in source order: if unix sockets are in use
and the socket file exists, remove the socket file; then send
Message.DaemonShutdown to the task handler. -/
def ctrlc_handler (settings : Settings) (socket_file_present : Bool) : List Event :=
  (if settings.shared.use_unix_socket && socket_file_present then
    [Event.removeFile settings.shared.unix_socket_path]
  else []) ++
  [Event.sendMessage Message.DaemonShutdown]

/-- Modelled from the spec: the task handler's DaemonShutdown processing
(src/daemon/task_handler.rs is not under src/). On DaemonShutdown the loop
stops accepting new spawns, optionally kills running children (policy
controlled by a shutdown flag), waits for reaps, persists, and exits the
process; normal shutdown exits with code 0. -/
inductive HandlerStep
  | stopNewSpawns
  | killRunningChildren
  | waitForReaps
  | persistState
  | exitProcess (code : Nat)
  deriving DecidableEq

/-- Modelled from the spec: the ordered steps the task handler performs on
receiving DaemonShutdown (src/daemon/task_handler.rs is not under src/). -/
def daemon_shutdown_steps (kill_children : Bool) : List HandlerStep :=
  HandlerStep.stopNewSpawns ::
    ((if kill_children then [HandlerStep.killRunningChildren] else []) ++
     [HandlerStep.waitForReaps, HandlerStep.persistState,
      HandlerStep.exitProcess 0])

/-- Filesystem model for init_directories: the set of directory paths that
currently exist, as a list. -/
structure FileSystem where
  dirs : List String
  deriving DecidableEq

/-- Rust Path::exists on the filesystem model. -/
def path_exists (fs : FileSystem) (p : String) : Bool :=
  decide (p ∈ fs.dirs)

/-- Rust std::fs::create_dir_all on the filesystem model (nominal path: the
call succeeds; on failure the source raises a panic, which ends the run). -/
def create_dir_all (fs : FileSystem) (p : String) : FileSystem :=
  ⟨p :: fs.dirs⟩

/-- Rust Path::join for one component. -/
def path_join (base sub : String) : String :=
  base ++ "/" ++ sub

/-- One block of init_directories: create the directory only when it does
not exist yet (the source checks !dir.exists() before create_dir_all). -/
def ensure_dir_exists (fs : FileSystem) (p : String) : FileSystem :=
  if path_exists fs p then fs else create_dir_all fs p

/-- init_directories of src/daemon/main.rs lines 110-143: ensure the pueue
base directory, then <base>/log, then <base>/task_logs, each created when
missing. -/
def init_directories (fs : FileSystem) (path : String) : FileSystem :=
  let fs1 := ensure_dir_exists fs path
  let fs2 := ensure_dir_exists fs1 (path_join path "log")
  ensure_dir_exists fs2 (path_join path "task_logs")

/-- Settings bootstrap of src/daemon/main.rs lines 47-63, abstracted over
the outcomes of the three library calls Settings::read, Settings::new and
Settings::save (the pueue library crate is not under src/). The result is
the settings main continues with, whether a save-back was attempted, and
the lines printed; an error aborts startup. On a read failure, settings are
rebuilt with defaults (a failure there propagates via the question-mark
operator) and saved back; a save failure is only printed. -/
def settings_startup (read_result : Except String Settings)
    (new_result : Except String Settings)
    (save_result : Except String Unit) :
    Except String (Settings × Bool × List String) :=
  match read_result with
  | Except.ok settings => Except.ok (settings, false, [])
  | Except.error _ =>
    match new_result with
    | Except.error e => Except.error e
    | Except.ok settings =>
      match save_result with
      | Except.ok _ => Except.ok (settings, true, [])
      | Except.error e =>
          Except.ok (settings, true, ["Failed saving config file.", e])

/-- Long-lived components of the daemon that hold references created in
main. -/
inductive Holder
  | taskHandler
  | signalHandler
  | ipcFrontEnd
  deriving DecidableEq

/-- Shared resources created in main, tagged with the identity of the
underlying allocation (an Arc clone or a channel-endpoint clone keeps the
identity of the allocation it came from). -/
inductive Res
  | stateRef (id : Nat)
  | channelSender (id : Nat)
  | channelReceiver (id : Nat)
  deriving DecidableEq

/-- Identities of the Arc-Mutex-State allocations performed in main:
State::new / Mutex::new / Arc::new run exactly once (line 67-68), giving
the single instance 0. -/
def main_state_instances : List Nat := [0]

/-- Identities of the mpsc channels created in main: channel() runs exactly
once (line 70), giving the single channel 0. -/
def main_channel_instances : List Nat := [0]

/-- References handed out by main, in source order: TaskHandler::new gets a
clone of the state Arc and the receiving end of the channel (line 71); the
ctrl-c closure captures a clone of the sender (line 79); accept_incoming
gets the sender and a clone of the state Arc (line 104). -/
def main_handles : List (Holder × Res) :=
  [(Holder.taskHandler, Res.stateRef 0),
   (Holder.taskHandler, Res.channelReceiver 0),
   (Holder.signalHandler, Res.channelSender 0),
   (Holder.ipcFrontEnd, Res.channelSender 0),
   (Holder.ipcFrontEnd, Res.stateRef 0)]

/-- Modelled from the spec: accept_incoming (src/daemon/socket.rs is not
under src/) hands every per-connection task the same state instance and the
same sender it received, so each connection's resources are those passed at
line 104. -/
def connection_handles (_conn : Nat) : List Res :=
  [Res.stateRef 0, Res.channelSender 0]

/-- Identities of the state instances referenced in a handle list. -/
def state_ids_of (l : List (Holder × Res)) : List Nat :=
  l.filterMap fun hr =>
    match hr.2 with
    | Res.stateRef i => some i
    | _ => none

/-- Holders of a state reference in a handle list. -/
def holders_of_state (l : List (Holder × Res)) : List Holder :=
  l.filterMap fun hr =>
    match hr.2 with
    | Res.stateRef _ => some hr.1
    | _ => none

/-- Identities of the state instances referenced in a resource list. -/
def res_state_ids (l : List Res) : List Nat :=
  l.filterMap fun r =>
    match r with
    | Res.stateRef i => some i
    | _ => none

/-- Holders of a channel sending end, with the channel identity. -/
def channel_sender_holders (l : List (Holder × Res)) : List (Holder × Nat) :=
  l.filterMap fun hr =>
    match hr.2 with
    | Res.channelSender i => some (hr.1, i)
    | _ => none

/-- Holders of a channel receiving end, with the channel identity. -/
def channel_receiver_holders (l : List (Holder × Res)) : List (Holder × Nat) :=
  l.filterMap fun hr =>
    match hr.2 with
    | Res.channelReceiver i => some (hr.1, i)
    | _ => none

/-- Threads of the daemon process: the async_std scheduler driving main and
the accept loop, or a dedicated OS thread created by std::thread::spawn. -/
inductive ThreadOf
  | asyncScheduler
  | dedicated (n : Nat)
  deriving DecidableEq

/-- The task handler's run loop is started on a dedicated OS thread
(std::thread::spawn at src/daemon/main.rs line 100). -/
def task_handler_thread : ThreadOf := ThreadOf.dedicated 0

/-- accept_incoming is awaited on the async_std scheduler (the async main at
lines 28-29 and the await at line 104). -/
def accept_incoming_thread : ThreadOf := ThreadOf.asyncScheduler

/- ------------------------------------------------------------------ -/
/- Theorems -/
/- ------------------------------------------------------------------ -/

theorem string_append_data (s t : String) : (s ++ t).data = s.data ++ t.data := by
  cases s
  cases t
  rfl

theorem path_exists_create_self (fs : FileSystem) (p : String) :
    path_exists (create_dir_all fs p) p = true := by
  simp [path_exists, create_dir_all]

theorem path_exists_ensure_self (fs : FileSystem) (p : String) :
    path_exists (ensure_dir_exists fs p) p = true := by
  unfold ensure_dir_exists
  by_cases h : path_exists fs p = true
  · simp [h]
  · simp [h, path_exists_create_self]

theorem path_exists_ensure_mono (fs : FileSystem) (p q : String)
    (h : path_exists fs p = true) :
    path_exists (ensure_dir_exists fs q) p = true := by
  unfold ensure_dir_exists
  by_cases hq : path_exists fs q = true
  · simp [hq, h]
  · simp [hq]
    simp [path_exists, create_dir_all] at h ⊢
    exact Or.inr h

/-- C1: at a concrete configuration with unix sockets enabled and the socket
file present, the termination-signal handler of main.rs removes the socket
file as its first action and only afterwards sends DaemonShutdown to the
task handler; no stop of the accept loop and no await of the handler's exit
precede the unlink, contradicting the mandated shutdown order. -/
theorem C1_shutdown_unlinks_socket_before_handler_drain :
    ctrlc_handler ⟨⟨"pueue_dir", true, "pueue_d.socket"⟩⟩ true =
      [Event.removeFile "pueue_d.socket",
       Event.sendMessage Message.DaemonShutdown] := by
  decide

/-- C2 (counterexample): the panic hook is installed only at the
setPanicHook step of main, which comes after the initDirectories step, so a
panic raised during startup directory bootstrapping is not processed by the
installed hook — refuting the claim that the hook covers every panic
including those raised during directory bootstrapping. -/
theorem C2_bootstrap_panic_not_covered :
    hook_covers ⟨false, 0, none, none⟩ Event.initDirectories = false := by
  decide

/-- C2 (amended): the installed panic hook first runs the previously
installed user-default diagnostics in full and then exits the process with
code 1; it is installed only after startup directory bootstrapping (the
setPanicHook step follows initDirectories in main's trace), and it is in
place before the handler thread is spawned and before the accept loop
runs. -/
theorem C2_panic_hook_after_bootstrap (orig_hook : List Event) (opt : Opt)
    (h : opt.daemonize = false) :
    (panic_hook orig_hook).take orig_hook.length = orig_hook ∧
    (panic_hook orig_hook).getLast? = some (Event.exitProcess 1) ∧
    ∃ pre post, mainTrace opt = pre ++ Event.setPanicHook :: post ∧
      Event.initDirectories ∈ pre ∧ Event.spawnHandlerThread ∈ post ∧
      Event.acceptIncoming ∈ post := by
  refine ⟨?_, ?_, ?_⟩
  · simp [panic_hook]
  · simp [panic_hook]
  · refine ⟨[Event.parseArgs, Event.initLogger (verbosityLevel opt.verbose),
      Event.readSettings, Event.initDirectories, Event.createState,
      Event.createChannel, Event.setCtrlcHandler],
      [Event.spawnHandlerThread, Event.acceptIncoming], ?_, ?_, ?_, ?_⟩
    · simp [mainTrace, h]
    · simp
    · simp
    · simp

/-- C2 (witness): the amended statement at the empty default hook and a
concrete non-daemonizing option set. -/
theorem C2_panic_hook_after_bootstrap_witness :
    (Opt.mk false 0 none none).daemonize = false ∧
    ((panic_hook []).take (List.length ([] : List Event)) = [] ∧
     (panic_hook []).getLast? = some (Event.exitProcess 1) ∧
     ∃ pre post, mainTrace (Opt.mk false 0 none none) =
         pre ++ Event.setPanicHook :: post ∧
       Event.initDirectories ∈ pre ∧ Event.spawnHandlerThread ∈ post ∧
       Event.acceptIncoming ∈ post) :=
  ⟨rfl, C2_panic_hook_after_bootstrap [] (Opt.mk false 0 none none) rfl⟩

/-- C3: for every configuration, the termination-signal handler performs no
process exit of its own and does send DaemonShutdown to the task handler;
the handler's shutdown procedure (modelled from the spec) starts by
stopping new spawns and ends, after waiting for reaps and persisting, with
the process exit. -/
theorem C3_signal_handler_delegates_exit (settings : Settings)
    (socket_file_present kill_children : Bool) :
    (∀ code, Event.exitProcess code ∉ ctrlc_handler settings socket_file_present) ∧
    Event.sendMessage Message.DaemonShutdown ∈ ctrlc_handler settings socket_file_present ∧
    ∃ mid, daemon_shutdown_steps kill_children =
      HandlerStep.stopNewSpawns :: mid ++
        [HandlerStep.waitForReaps, HandlerStep.persistState,
         HandlerStep.exitProcess 0] := by
  refine ⟨?_, ?_, ?_⟩
  · intro code
    unfold ctrlc_handler
    by_cases h : (settings.shared.use_unix_socket && socket_file_present) = true
    · simp [h]
    · simp [h]
  · unfold ctrlc_handler
    by_cases h : (settings.shared.use_unix_socket && socket_file_present) = true
    · simp [h]
    · simp [h]
  · refine ⟨if kill_children then [HandlerStep.killRunningChildren] else [], ?_⟩
    cases kill_children <;> rfl

/-- C4: init_directories makes the base directory and the task-log
directory <base>/task_logs exist (creating each of them when missing), and
in main's trace the directory bootstrap precedes the creation of the state
and the spawn of the task-handler thread, hence precedes any task run. -/
theorem C4_directories_exist_before_tasks (fs : FileSystem) (path : String)
    (opt : Opt) (h : opt.daemonize = false) :
    path_exists (init_directories fs path) path = true ∧
    path_exists (init_directories fs path) (path_join path "task_logs") = true ∧
    ∃ pre post, mainTrace opt = pre ++ Event.initDirectories :: post ∧
      Event.createState ∈ post ∧ Event.spawnHandlerThread ∈ post := by
  refine ⟨?_, ?_, ?_⟩
  · unfold init_directories
    exact path_exists_ensure_mono _ _ _
      (path_exists_ensure_mono _ _ _ (path_exists_ensure_self fs path))
  · unfold init_directories
    exact path_exists_ensure_self _ _
  · refine ⟨[Event.parseArgs, Event.initLogger (verbosityLevel opt.verbose),
      Event.readSettings],
      [Event.createState, Event.createChannel, Event.setCtrlcHandler,
       Event.setPanicHook, Event.spawnHandlerThread, Event.acceptIncoming],
      ?_, ?_, ?_⟩
    · simp [mainTrace, h]
    · simp
    · simp

/-- C4 (witness): the statement at an empty filesystem, the base path
"pueue_dir" and a concrete non-daemonizing option set. -/
theorem C4_directories_exist_before_tasks_witness :
    (Opt.mk false 0 none none).daemonize = false ∧
    (path_exists (init_directories ⟨[]⟩ "pueue_dir") "pueue_dir" = true ∧
     path_exists (init_directories ⟨[]⟩ "pueue_dir")
       (path_join "pueue_dir" "task_logs") = true ∧
     ∃ pre post, mainTrace (Opt.mk false 0 none none) =
         pre ++ Event.initDirectories :: post ∧
       Event.createState ∈ post ∧ Event.spawnHandlerThread ∈ post) :=
  ⟨rfl, C4_directories_exist_before_tasks ⟨[]⟩ "pueue_dir"
    (Opt.mk false 0 none none) rfl⟩

/-- C5: main performs exactly one state allocation; among all references
handed out in main, the state references are exactly one held by the task
handler and one held by the IPC front-end, both to that single instance,
and every per-connection task (modelled from the spec) references the same
instance. -/
theorem C5_single_state_mutex :
    main_state_instances = [0] ∧
    state_ids_of main_handles = [0, 0] ∧
    holders_of_state main_handles = [Holder.taskHandler, Holder.ipcFrontEnd] ∧
    ∀ conn : Nat, res_state_ids (connection_handles conn) = [0] :=
  ⟨rfl, rfl, rfl, fun _ => rfl⟩

/-- C6: main creates exactly one control-message channel; its sending ends
are held by the signal handler and the IPC front-end (multiple producers),
and the unique receiving end is held by the task handler and by no other
component. -/
theorem C6_single_consumer_channel :
    main_channel_instances = [0] ∧
    channel_sender_holders main_handles =
      [(Holder.signalHandler, 0), (Holder.ipcFrontEnd, 0)] ∧
    channel_receiver_holders main_handles = [(Holder.taskHandler, 0)] :=
  ⟨rfl, rfl, rfl⟩

/-- C7: the task handler's run loop executes on a dedicated OS thread,
distinct from the async scheduler on which accept_incoming runs, and in
main's trace (when not daemonizing) both the handler-thread spawn and the
accept loop occur. -/
theorem C7_handler_runs_on_dedicated_thread (opt : Opt)
    (h : opt.daemonize = false) :
    task_handler_thread ≠ accept_incoming_thread ∧
    (∃ n, task_handler_thread = ThreadOf.dedicated n) ∧
    accept_incoming_thread = ThreadOf.asyncScheduler ∧
    Event.spawnHandlerThread ∈ mainTrace opt ∧
    Event.acceptIncoming ∈ mainTrace opt := by
  refine ⟨by decide, ⟨0, rfl⟩, rfl, ?_, ?_⟩
  · simp [mainTrace, h]
  · simp [mainTrace, h]

/-- C7 (witness): the statement at a concrete non-daemonizing option set. -/
theorem C7_handler_runs_on_dedicated_thread_witness :
    (Opt.mk false 0 none none).daemonize = false ∧
    (task_handler_thread ≠ accept_incoming_thread ∧
     (∃ n, task_handler_thread = ThreadOf.dedicated n) ∧
     accept_incoming_thread = ThreadOf.asyncScheduler ∧
     Event.spawnHandlerThread ∈ mainTrace (Opt.mk false 0 none none) ∧
     Event.acceptIncoming ∈ mainTrace (Opt.mk false 0 none none)) :=
  ⟨rfl, C7_handler_runs_on_dedicated_thread (Opt.mk false 0 none none) rfl⟩

/-- C8: with daemonize set, main's whole run is: parse options, spawn a new
pueued child — forwarding the port when present and, for nonzero verbosity
v, the single argument consisting of the minus character followed by v
space characters — print the notice, and exit with status 0; no logger
setup, settings read, directory bootstrap, state construction or
handler-thread spawn occurs; with no port and zero verbosity the child gets
no arguments. -/
theorem C8_daemonize_forks_and_exits (port : String) (v : Nat) (hv : 0 < v) :
    mainTrace (Opt.mk true v (some port) none) =
      [Event.parseArgs,
       Event.spawnChild "pueued" ["--port", port, "-" ++ space_repeat v],
       Event.printNotice fork_notice,
       Event.exitProcess 0] ∧
    ("-" ++ space_repeat v).data = '-' :: List.replicate v ' ' ∧
    (∀ lvl, Event.initLogger lvl ∉ mainTrace (Opt.mk true v (some port) none)) ∧
    Event.readSettings ∉ mainTrace (Opt.mk true v (some port) none) ∧
    Event.initDirectories ∉ mainTrace (Opt.mk true v (some port) none) ∧
    Event.createState ∉ mainTrace (Opt.mk true v (some port) none) ∧
    Event.spawnHandlerThread ∉ mainTrace (Opt.mk true v (some port) none) ∧
    mainTrace (Opt.mk true 0 none none) =
      [Event.parseArgs, Event.spawnChild "pueued" [],
       Event.printNotice fork_notice, Event.exitProcess 0] := by
  refine ⟨?_, ?_, ?_, ?_, ?_, ?_, ?_, ?_⟩
  · simp [mainTrace, fork_daemon, fork_arguments, hv]
  · rw [string_append_data]
    rfl
  · intro lvl
    simp [mainTrace, fork_daemon]
  · simp [mainTrace, fork_daemon]
  · simp [mainTrace, fork_daemon]
  · simp [mainTrace, fork_daemon]
  · simp [mainTrace, fork_daemon]
  · rfl

/-- C8 (witness): the statement at port "6924" and verbosity 2. -/
theorem C8_daemonize_forks_and_exits_witness :
    0 < 2 ∧
    (mainTrace (Opt.mk true 2 (some "6924") none) =
      [Event.parseArgs,
       Event.spawnChild "pueued" ["--port", "6924", "-" ++ space_repeat 2],
       Event.printNotice fork_notice,
       Event.exitProcess 0] ∧
    ("-" ++ space_repeat 2).data = '-' :: List.replicate 2 ' ' ∧
    (∀ lvl, Event.initLogger lvl ∉ mainTrace (Opt.mk true 2 (some "6924") none)) ∧
    Event.readSettings ∉ mainTrace (Opt.mk true 2 (some "6924") none) ∧
    Event.initDirectories ∉ mainTrace (Opt.mk true 2 (some "6924") none) ∧
    Event.createState ∉ mainTrace (Opt.mk true 2 (some "6924") none) ∧
    Event.spawnHandlerThread ∉ mainTrace (Opt.mk true 2 (some "6924") none) ∧
    mainTrace (Opt.mk true 0 none none) =
      [Event.parseArgs, Event.spawnChild "pueued" [],
       Event.printNotice fork_notice, Event.exitProcess 0]) :=
  ⟨by decide, C8_daemonize_forks_and_exits "6924" 2 (by decide)⟩

/-- C9: the logger level is exactly Error for verbosity 0, Warn for 1, Info
for 2 and Debug for every higher count. -/
theorem C9_verbosity_level_map (v : Nat) :
    verbosityLevel v =
      if v = 0 then LevelFilter.Error
      else if v = 1 then LevelFilter.Warn
      else if v = 2 then LevelFilter.Info
      else LevelFilter.Debug := by
  match v with
  | 0 => rfl
  | 1 => rfl
  | 2 => rfl
  | (n + 3) => rfl

/-- C10: when Settings::read succeeds its settings are used unchanged and no
save is attempted; when it fails and rebuilding defaulted settings also
fails, startup aborts with that error; when the rebuild succeeds, a save is
attempted, and whether the save succeeds or fails startup continues with
the defaulted settings — a save failure is only reported. -/
theorem C10_settings_fallback (s : Settings) (e e2 : String)
    (new_result : Except String Settings) (save_result : Except String Unit) :
    settings_startup (Except.ok s) new_result save_result =
      Except.ok (s, false, []) ∧
    settings_startup (Except.error e) (Except.error e2) save_result =
      Except.error e2 ∧
    settings_startup (Except.error e) (Except.ok s) (Except.ok ()) =
      Except.ok (s, true, []) ∧
    settings_startup (Except.error e) (Except.ok s) (Except.error e2) =
      Except.ok (s, true, ["Failed saving config file.", e2]) :=
  ⟨rfl, rfl, rfl, rfl⟩

end PueueDaemon
